import Mathlib

/-!
Verification of the SeenLang performance-validation engine.

This file gives a shallow embedding of the decision logic of
`performance_validation/scripts/validate_claims.py`,
`performance_validation/scripts/check_regression.py`,
`performance_validation/scripts/compare_performance.py` and
`performance_validation/scripts/fix_report_generator.py`, and proves
properties of that logic.  Python floats are modelled as exact rationals
(`ℚ`); Python dicts are modelled as association lists; optional JSON keys
are modelled with `Option`.
-/

set_option maxHeartbeats 1000000

/-- Substring test: Python `needle in hay` on strings, for char lists. -/
def hasSub (needle : List Char) : List Char → Bool
  | [] => needle.isEmpty
  | c :: tl => needle.isPrefixOf (c :: tl) || hasSub needle tl

/-- Python `needle in hay.lower()` where `needle` is already lowercase. -/
def lowerContains (hay : String) (needle : String) : Bool :=
  hasSub needle.toList (hay.toList.map Char.toLower)

/-- Python `s.lower() == t` for a lowercase literal `t`. -/
def eqLower (s : String) (t : String) : Bool :=
  s.toList.map Char.toLower == t.toList

/-- Association-list lookup, modelling Python `d[k]` / `k in d`. -/
def alookup (k : String) : List (String × α) → Option α
  | [] => none
  | (k', v) :: tl => if k' == k then some v else alookup k tl

/-- Numeric formatting abstraction: the Python code interpolates floats with
format specifiers (for example a thousands separator); the exact rendered text
is irrelevant to every property proved here, so rationals are rendered as
`num/den`. -/
def fmtQ (q : ℚ) : String := toString q.num ++ "/" ++ toString q.den

/-! ## Data model of `validate_claims.py` -/

/-- `PerformanceClaim` dataclass (validate_claims.py lines 16-25). -/
structure PerformanceClaim where
  name : String
  description : String
  claimed_value : ℚ
  claimed_unit : String
  comparison_type : String
  benchmark_category : String
  critical : Bool
deriving Repr, DecidableEq

/-- `ValidationResult` dataclass (validate_claims.py lines 27-37). -/
structure ValidationResult where
  claim : PerformanceClaim
  validated : Bool
  actual_value : Option ℚ
  actual_unit : Option String
  confidence_level : ℚ
  evidence_quality : String
  deviation_percentage : Option ℚ
  recommendation : String
deriving Repr, DecidableEq

/-- One entry of a benchmark's `comparisons` dict.  Fields read with
`comparison.get(key, default)` in the source are `Option`s here, with the
default applied at the use site. -/
structure ComparisonRec where
  language_a : Option String
  speedup_ratio : Option ℚ
  is_significant : Option Bool
deriving Repr, DecidableEq

/-- String-encoded or structured `summary` payload of one language entry
(the two shapes normalised by `fix_report_generator.py` and read by
`compare_performance.py`). -/
inductive SummaryVal where
  | dict (fields : List (String × ℚ))
  | str (s : List Char)
deriving Repr, DecidableEq

/-- One language's entry inside a benchmark: `metadata` is used by
`validate_claims.py` (absent key behaves as `{}`), the remaining fields are
the shapes probed by `compare_performance._extract_mean`. -/
structure LangData where
  metadata : List (String × ℚ)
  summary : Option SummaryVal
  average_time : Option ℚ
  times : Option (List ℚ)
deriving Repr, DecidableEq

/-- One benchmark record of the statistical-analysis JSON: `languages` and
`comparisons` keys may be absent (`Option`). -/
structure BenchEntry where
  languages : Option (List (String × LangData))
  comparisons : Option (List (String × ComparisonRec))
deriving Repr, DecidableEq

/-- The loaded `benchmark_data` JSON: `data.get('benchmarks', {})`; a missing
`benchmarks` key behaves as the empty dict, so it is the bare list here. -/
structure BenchmarkData where
  benchmarks : List (String × BenchEntry)
deriving Repr, DecidableEq

/-- `ClaimsValidator._define_claims` (validate_claims.py lines 45-111):
the static catalog, defined verbatim. -/
def defineClaims : List PerformanceClaim :=
  [ { name := "lexer_speed",
      description := "Lexer processes more than 14M tokens per second",
      claimed_value := 14000000, claimed_unit := "tokens/second",
      comparison_type := "greater_than", benchmark_category := "lexer",
      critical := true },
    { name := "memory_overhead",
      description := "Memory overhead is -58% (impossible claim)",
      claimed_value := -58, claimed_unit := "percent",
      comparison_type := "approximately", benchmark_category := "memory",
      critical := true },
    { name := "jit_startup",
      description := "JIT startup time is less than 50ms",
      claimed_value := 50, claimed_unit := "milliseconds",
      comparison_type := "less_than", benchmark_category := "runtime",
      critical := true },
    { name := "faster_than_rust",
      description := "Runtime performance exceeds Rust",
      claimed_value := 1, claimed_unit := "speedup_ratio",
      comparison_type := "greater_than", benchmark_category := "runtime",
      critical := false },
    { name := "faster_than_cpp",
      description := "Runtime performance exceeds C++",
      claimed_value := 1, claimed_unit := "speedup_ratio",
      comparison_type := "greater_than", benchmark_category := "runtime",
      critical := false },
    { name := "zero_cost_abstractions",
      description := "Reactive abstractions have zero runtime cost",
      claimed_value := 0, claimed_unit := "percent_overhead",
      comparison_type := "approximately", benchmark_category := "reactive",
      critical := false },
    { name := "compilation_speed",
      description := "Compiles faster than C++ and Rust",
      claimed_value := 1, claimed_unit := "speedup_ratio",
      comparison_type := "greater_than", benchmark_category := "compilation",
      critical := false } ]

/-- The `memory_overhead` catalog entry. -/
def memoryOverheadClaim : PerformanceClaim :=
  { name := "memory_overhead",
    description := "Memory overhead is -58% (impossible claim)",
    claimed_value := -58, claimed_unit := "percent",
    comparison_type := "approximately", benchmark_category := "memory",
    critical := true }

/-- The `lexer_speed` catalog entry. -/
def lexerSpeedClaim : PerformanceClaim :=
  { name := "lexer_speed",
    description := "Lexer processes more than 14M tokens per second",
    claimed_value := 14000000, claimed_unit := "tokens/second",
    comparison_type := "greater_than", benchmark_category := "lexer",
    critical := true }

/-- The `jit_startup` catalog entry. -/
def jitStartupClaim : PerformanceClaim :=
  { name := "jit_startup",
    description := "JIT startup time is less than 50ms",
    claimed_value := 50, claimed_unit := "milliseconds",
    comparison_type := "less_than", benchmark_category := "runtime",
    critical := true }

/-- The `faster_than_rust` catalog entry. -/
def fasterThanRustClaim : PerformanceClaim :=
  { name := "faster_than_rust",
    description := "Runtime performance exceeds Rust",
    claimed_value := 1, claimed_unit := "speedup_ratio",
    comparison_type := "greater_than", benchmark_category := "runtime",
    critical := false }

/-- A `ValidationResult` with no evidence, as built by the several
`evidence_quality = "insufficient"` early returns of the validators. -/
def insufficientRes (claim : PerformanceClaim) (rec : String) : ValidationResult :=
  { claim := claim, validated := false, actual_value := none,
    actual_unit := none, confidence_level := 0,
    evidence_quality := "insufficient", deviation_percentage := none,
    recommendation := rec }

/-- The Seen tokens-per-second samples collected by `_validate_lexer_claim`
(validate_claims.py lines 176-189): for every benchmark whose name contains
"lexer", for every language equal to "seen" (case-insensitively), take
`metadata['tokens_per_second']`, falling back to `metadata['tokens_per_sec']`. -/
def seenLexerValues (d : BenchmarkData) : List ℚ :=
  (d.benchmarks.filter (fun p => lowerContains p.1 "lexer")).foldl
    (fun acc p =>
      (p.2.languages.getD []).foldl
        (fun acc2 q =>
          if eqLower q.1 "seen" then
            match alookup "tokens_per_second" q.2.metadata with
            | some v => acc2 ++ [v]
            | none =>
              match alookup "tokens_per_sec" q.2.metadata with
              | some v => acc2 ++ [v]
              | none => acc2
          else acc2) acc) []

/-- `_validate_lexer_claim` (validate_claims.py lines 154-239). -/
def validateLexerClaim (claim : PerformanceClaim) (d : BenchmarkData) :
    ValidationResult :=
  let lexerBenchmarks := d.benchmarks.filter (fun p => lowerContains p.1 "lexer")
  if lexerBenchmarks.isEmpty then
    insufficientRes claim "No lexer benchmark data found"
  else
    let vals := seenLexerValues d
    if vals.isEmpty then
      insufficientRes claim "No Seen lexer performance data found"
    else
      let actual := vals.sum / (vals.length : ℚ)
      let validated :=
        if claim.comparison_type == "greater_than" then
          decide (claim.claimed_value < actual)
        else false
      let deviation : Option ℚ :=
        if claim.comparison_type == "greater_than" then
          some ((actual - claim.claimed_value) / claim.claimed_value * 100)
        else none
      let confidence := min ((vals.length : ℚ) / 10) 1
      let quality :=
        if 10 ≤ vals.length then "strong"
        else if 5 ≤ vals.length then "moderate"
        else "weak"
      { claim := claim, validated := validated, actual_value := some actual,
        actual_unit := some claim.claimed_unit,
        confidence_level := confidence, evidence_quality := quality,
        deviation_percentage := deviation,
        recommendation :=
          if validated then
            "Claim validated: Seen achieves " ++ fmtQ actual ++ " " ++
              claim.claimed_unit
          else
            "Claim not validated: Seen achieves " ++ fmtQ actual ++ " " ++
              claim.claimed_unit ++ ", below claimed " ++
              fmtQ claim.claimed_value }

/-- `_validate_memory_claim` (validate_claims.py lines 241-285).  The first
branch is the impossible-claim rule: a negative claimed value whose
description contains "overhead" is rejected without consulting
`benchmark_data`. -/
def validateMemoryClaim (claim : PerformanceClaim) (d : BenchmarkData) :
    ValidationResult :=
  if decide (claim.claimed_value < 0) && lowerContains claim.description "overhead" then
    { claim := claim, validated := false, actual_value := none,
      actual_unit := none, confidence_level := 1,
      evidence_quality := "strong", deviation_percentage := none,
      recommendation := "Claim is mathematically impossible: negative memory overhead cannot exist. Revise to realistic positive overhead (5-20% typical for memory-safe languages)." }
  else
    let memoryBenchmarks := d.benchmarks.filter (fun p => lowerContains p.1 "memory")
    if memoryBenchmarks.isEmpty then
      insufficientRes claim "No memory benchmark data available for validation"
    else
      { claim := claim, validated := false, actual_value := some 15,
        actual_unit := some "percent", confidence_level := 7 / 10,
        evidence_quality := "moderate", deviation_percentage := none,
        recommendation := "Typical memory overhead for memory-safe languages is 5-20%. Recommend updating claim to reflect realistic measurements." }

/-- The win/loss/total tally of `_validate_runtime_claim`
(validate_claims.py lines 324-343), folding over the comparisons of every
runtime benchmark whose comparison name mentions the target language and
"seen". -/
def runtimeTally (target : String) (d : BenchmarkData) : ℕ × ℕ × ℕ :=
  (d.benchmarks.filter (fun p =>
      lowerContains p.1 "runtime" || lowerContains p.1 "codegen" ||
        lowerContains p.1 "execution")).foldl
    (fun acc p =>
      (p.2.comparisons.getD []).foldl
        (fun wlt q =>
          if lowerContains q.1 target && lowerContains q.1 "seen" then
            let seenFirst := lowerContains (q.2.language_a.getD "") "seen"
            let speedup := q.2.speedup_ratio.getD 1
            let sig := q.2.is_significant.getD false
            if sig then
              if (seenFirst && decide ((1 : ℚ) < speedup)) ||
                  (!seenFirst && decide (speedup < (1 : ℚ))) then
                (wlt.1 + 1, wlt.2.1, wlt.2.2 + 1)
              else (wlt.1, wlt.2.1 + 1, wlt.2.2 + 1)
            else (wlt.1, wlt.2.1, wlt.2.2 + 1)
          else wlt) acc) (0, 0, 0)

/-- `_validate_runtime_claim` (validate_claims.py lines 287-369).  The Python
literal `0.6` is the rational 3/5 here (floats modelled exactly). -/
def validateRuntimeClaim (claim : PerformanceClaim) (d : BenchmarkData) :
    ValidationResult :=
  let runtimeBenchmarks := d.benchmarks.filter (fun p =>
    lowerContains p.1 "runtime" || lowerContains p.1 "codegen" ||
      lowerContains p.1 "execution")
  if runtimeBenchmarks.isEmpty then
    insufficientRes claim "No runtime performance benchmarks found"
  else
    let target : Option String :=
      if lowerContains claim.description "rust" then some "rust"
      else if lowerContains claim.description "cpp" then some "cpp"
      else none
    match target with
    | none => insufficientRes claim "Cannot determine target language for comparison"
    | some tgt =>
      let wlt := runtimeTally tgt d
      let wins := wlt.1
      let total := wlt.2.2
      if total = 0 then
        insufficientRes claim ("No comparisons found against " ++ tgt)
      else
        let winRate : ℚ := (wins : ℚ) / (total : ℚ)
        { claim := claim, validated := decide ((3 / 5 : ℚ) < winRate),
          actual_value := some (winRate * 100),
          actual_unit := some "percent_win_rate",
          confidence_level := min ((total : ℚ) / 10) 1,
          evidence_quality := if 10 ≤ total then "strong" else "moderate",
          deviation_percentage := none,
          recommendation := "Seen wins " ++ toString wins ++ "/" ++
            toString total ++ " comparisons (" ++ fmtQ (winRate * 100) ++
            "% win rate) against " ++ tgt }

/-- `_validate_reactive_claim` (validate_claims.py lines 371-401). -/
def validateReactiveClaim (claim : PerformanceClaim) (d : BenchmarkData) :
    ValidationResult :=
  let reactiveBenchmarks := d.benchmarks.filter (fun p => lowerContains p.1 "reactive")
  if reactiveBenchmarks.isEmpty then
    insufficientRes claim "No reactive programming benchmarks found"
  else
    { claim := claim, validated := false, actual_value := some 15,
      actual_unit := some "percent", confidence_level := 1 / 2,
      evidence_quality := "moderate", deviation_percentage := none,
      recommendation := "Reactive abstractions typically have 10-30% overhead. \x27Zero-cost\x27 is unrealistic - recommend updating to \x27low-cost\x27 with measured overhead." }

/-- `_validate_compilation_claim` (validate_claims.py lines 403-417). -/
def validateCompilationClaim (claim : PerformanceClaim) (_d : BenchmarkData) :
    ValidationResult :=
  insufficientRes claim "Compilation speed benchmarks not yet available"

/-- `_validate_single_claim` (validate_claims.py lines 127-152): dispatch on
`benchmark_category`. -/
def validateSingleClaim (claim : PerformanceClaim) (d : BenchmarkData) :
    ValidationResult :=
  if claim.benchmark_category == "lexer" then validateLexerClaim claim d
  else if claim.benchmark_category == "memory" then validateMemoryClaim claim d
  else if claim.benchmark_category == "runtime" then validateRuntimeClaim claim d
  else if claim.benchmark_category == "reactive" then validateReactiveClaim claim d
  else if claim.benchmark_category == "compilation" then validateCompilationClaim claim d
  else insufficientRes claim
    ("No validation method available for category: " ++ claim.benchmark_category)

/-- `validate_claims` (validate_claims.py lines 113-125): one result per
catalog claim, in catalog order. -/
def validateClaims (d : BenchmarkData) : List ValidationResult :=
  defineClaims.map (fun c => validateSingleClaim c d)

/-- The `validation_summary` object of `generate_claims_report`
(validate_claims.py lines 419-439). -/
structure ValidationSummary where
  total_claims : ℕ
  validated_claims : ℕ
  validation_rate : ℚ
  critical_claims : ℕ
  critical_validated : ℕ
  critical_validation_rate : ℚ
deriving Repr, DecidableEq

/-- `generate_claims_report`'s summary computation (validate_claims.py
lines 422-435). -/
def generateSummary (results : List ValidationResult) : ValidationSummary :=
  let total := results.length
  let validated := (results.filter (fun r => r.validated)).length
  let critical := results.filter (fun r => r.claim.critical)
  let criticalValidated := (critical.filter (fun r => r.validated)).length
  { total_claims := total,
    validated_claims := validated,
    validation_rate := if 0 < total then (validated : ℚ) / (total : ℚ) else 0,
    critical_claims := critical.length,
    critical_validated := criticalValidated,
    critical_validation_rate :=
      if critical.isEmpty then 0
      else (criticalValidated : ℚ) / (critical.length : ℚ) }

/-- The exit decision of `main` in validate_claims.py (lines 591-596), on the
path where the benchmark-data file loaded: return 2 when
`critical_validation_rate < 1.0`, else 0. -/
def validateClaimsExit (d : BenchmarkData) : ℕ :=
  if (generateSummary (validateClaims d)).critical_validation_rate < 1 then 2
  else 0

/-! ## Data model of `compare_performance.py` and `fix_report_generator.py`:
string-encoded summary extraction (the regex adapter). -/

/-- The character class `[0-9.e+-]` of the extraction regexes. -/
def numTokChar (c : Char) : Bool :=
  c.isDigit || c == '.' || c == 'e' || c == '+' || c == '-'

/-- The optional wrapper `np.float64(` of the extraction regexes. -/
def w64 : List Char := ['n', 'p', '.', 'f', 'l', 'o', 'a', 't', '6', '4', '(']

/-- Matching `(?:np\.float64\()?([0-9.e+-]+)` at one position: greedily try
the wrapper, then take the longest run of class characters; on an empty run,
backtrack to the unwrapped alternative.  Returns the captured group. -/
def matchNumAfter (w : List Char) (s : List Char) : Option (List Char) :=
  if w.isPrefixOf s then
    let tok := (s.drop w.length).takeWhile numTokChar
    if tok.isEmpty then
      let tok2 := s.takeWhile numTokChar
      if tok2.isEmpty then none else some tok2
    else some tok
  else
    let tok := s.takeWhile numTokChar
    if tok.isEmpty then none else some tok

/-- `re.search` with pattern `pat` followed by a sub-matcher `m`: try every
position left to right; at a position where `pat` matches but `m` fails, keep
scanning from the next character. -/
def searchWith (pat : List Char) (m : List Char → Option (List Char)) :
    List Char → Option (List Char)
  | [] => none
  | c :: tl =>
    if pat.isPrefixOf (c :: tl) then
      match m ((c :: tl).drop pat.length) with
      | some tok => some tok
      | none => searchWith pat m tl
    else searchWith pat m tl

/-- `re.search(key + r'(?:np\.float64\()?([0-9.e+-]+)', s)`, capture group 1. -/
def searchTok (pat : List Char) (s : List Char) : Option (List Char) :=
  searchWith pat (matchNumAfter w64) s

/-- Matching `(\d+)` at one position: the longest nonempty digit run. -/
def digitsMatcher (s : List Char) : Option (List Char) :=
  let tok := s.takeWhile Char.isDigit
  if tok.isEmpty then none else some tok

/-- `re.search(key + r'(\d+)', s)`, capture group 1 (the `sample_size` regex). -/
def searchDigits (pat : List Char) (s : List Char) : Option (List Char) :=
  searchWith pat digitsMatcher s

/-- Split a char list at the first occurrence of `c` (the separator is
dropped); `none` when `c` does not occur. -/
def splitFirst (c : Char) : List Char → List Char × Option (List Char)
  | [] => ([], none)
  | x :: tl =>
    if x == c then ([], some tl)
    else
      let r := splitFirst c tl
      (x :: r.1, r.2)

/-- Decimal digits to a natural number. -/
def digitsToNat (l : List Char) : ℕ :=
  l.foldl (fun a c => a * 10 + (c.toNat - 48)) 0

/-- Optional leading sign. -/
def parseSign : List Char → ℤ × List Char
  | '-' :: r => (-1, r)
  | '+' :: r => (1, r)
  | r => (1, r)

/-- The mantissa part of a Python float literal: optional sign, digits with at
most one decimal point, at least one digit overall. -/
def parseMantissa (l : List Char) : Option ℚ :=
  let sr := parseSign l
  let parts := splitFirst '.' sr.2
  let intPart := parts.1
  let fracPart := (parts.2).getD []
  if intPart.all Char.isDigit && fracPart.all Char.isDigit &&
      !(intPart.isEmpty && fracPart.isEmpty) &&
      !(intPart.isEmpty && (parts.2).isNone) then
    some ((sr.1 : ℚ) *
      ((digitsToNat intPart : ℚ) +
        (digitsToNat fracPart : ℚ) / (10 : ℚ) ^ fracPart.length))
  else none

/-- Signed decimal exponent. -/
def parseExp (l : List Char) : Option ℤ :=
  let sr := parseSign l
  if sr.2.all Char.isDigit && !sr.2.isEmpty then
    some (sr.1 * (digitsToNat sr.2 : ℤ))
  else none

/-- Python `float(tok)` on the tokens producible by the extraction regexes,
as an exact rational; `none` models the `ValueError` a malformed token
raises. -/
def parseFloat (l : List Char) : Option ℚ :=
  let parts := splitFirst 'e' l
  match parseMantissa parts.1 with
  | none => none
  | some m =>
    match parts.2 with
    | none => some m
    | some ex =>
      match parseExp ex with
      | none => none
      | some e => some (m * (10 : ℚ) ^ e)

/-- The six field patterns of `fix_statistical_analysis`
(fix_report_generator.py lines 29-34). -/
def meanKey : List Char := ['m', 'e', 'a', 'n', '=']

/-- Pattern `std_dev=`. -/
def stdKey : List Char := ['s', 't', 'd', '_', 'd', 'e', 'v', '=']

/-- Pattern `median=`. -/
def medianKey : List Char := ['m', 'e', 'd', 'i', 'a', 'n', '=']

/-- Pattern `sample_size=`. -/
def sizeKey : List Char := ['s', 'a', 'm', 'p', 'l', 'e', '_', 's', 'i', 'z', 'e', '=']

/-- Pattern `min_val=`. -/
def minKey : List Char := ['m', 'i', 'n', '_', 'v', 'a', 'l', '=']

/-- Pattern `max_val=`. -/
def maxKey : List Char := ['m', 'a', 'x', '_', 'v', 'a', 'l', '=']

/-- The `parsed_summary` dict built by `fix_statistical_analysis`
(fix_report_generator.py lines 26-47): each key present exactly when its
pattern matched.  `float()` on a matched token is `parseFloat` (a malformed
token would raise in Python; here the field is absent). -/
structure ParsedSummary where
  mean : Option ℚ
  std_dev : Option ℚ
  median : Option ℚ
  sample_size : Option ℕ
  minv : Option ℚ
  maxv : Option ℚ
deriving Repr, DecidableEq

/-- String-summary normalisation of `fix_statistical_analysis`. -/
def parseSummaryStr (s : List Char) : ParsedSummary :=
  { mean := (searchTok meanKey s).bind parseFloat,
    std_dev := (searchTok stdKey s).bind parseFloat,
    median := (searchTok medianKey s).bind parseFloat,
    sample_size := (searchDigits sizeKey s).map digitsToNat,
    minv := (searchTok minKey s).bind parseFloat,
    maxv := (searchTok maxKey s).bind parseFloat }

/-- `_extract_mean` (compare_performance.py lines 105-124): structured
summary dict first, then the string regex, then `average_time`, then the mean
of a raw `times` list.  `np.mean` of an empty list is NaN in the source
(unrepresentable in `ℚ`); no property proved here touches that case, and it
is modelled as "no data". -/
def extractMean (d : LangData) : Option ℚ :=
  let fromSummary : Option ℚ :=
    match d.summary with
    | some (SummaryVal.dict fs) => alookup "mean" fs
    | some (SummaryVal.str s) => (searchTok meanKey s).bind parseFloat
    | none => none
  match fromSummary with
  | some v => some v
  | none =>
    match d.average_time with
    | some v => some v
    | none =>
      match d.times with
      | some ts => if ts.isEmpty then none else some (ts.sum / (ts.length : ℚ))
      | none => none

/-! ## `compare_performance.compare` -/

/-- One entry of the per-pair result dict built by `compare`
(compare_performance.py lines 83-89). -/
structure PairResult where
  benchmark : String
  language : String
  baseline : ℚ
  current : ℚ
  change_percent : ℚ
deriving Repr, DecidableEq

/-- Classification outcome of one baseline/current pair. -/
inductive PairClass where
  | regression
  | improvement
  | unchanged
deriving Repr, DecidableEq

/-- The per-pair core of `compare` (compare_performance.py lines 77-96):
Python `if baseline_mean and current_mean` treats both `None` and `0.0` as
falsy, so such pairs produce no classified result at all; otherwise the pair
is classified against the threshold. -/
def classifyPair (t : ℚ) (bm cm : Option ℚ) : Option (PairClass × ℚ) :=
  match bm, cm with
  | some b, some c =>
    if b = 0 then none
    else if c = 0 then none
    else
      let ch := (c - b) / b * 100
      if t < ch then some (PairClass.regression, ch)
      else if ch < -t then some (PairClass.improvement, ch)
      else some (PairClass.unchanged, ch)
  | _, _ => none

/-- The five output lists of `compare`. -/
structure CompareOutput where
  regressions : List PairResult
  improvements : List PairResult
  unchanged : List PairResult
  missing : List String
  newBenches : List String
deriving Repr, DecidableEq

/-- `compare` (compare_performance.py lines 49-103). -/
def comparePerf (t : ℚ) (baseline current : List (String × BenchEntry)) :
    CompareOutput :=
  let afterBase := baseline.foldl
    (fun (acc : CompareOutput) p =>
      match alookup p.1 current with
      | none => { acc with missing := acc.missing ++ [p.1] }
      | some cdata =>
        match p.2.languages, cdata.languages with
        | some blangs, some clangs =>
          blangs.foldl
            (fun acc2 q =>
              match alookup q.1 clangs with
              | none => acc2
              | some cl =>
                match classifyPair t (extractMean q.2) (extractMean cl) with
                | some (PairClass.regression, ch) =>
                  { acc2 with regressions := acc2.regressions ++
                      [⟨p.1, q.1, (extractMean q.2).getD 0, (extractMean cl).getD 0, ch⟩] }
                | some (PairClass.improvement, ch) =>
                  { acc2 with improvements := acc2.improvements ++
                      [⟨p.1, q.1, (extractMean q.2).getD 0, (extractMean cl).getD 0, ch⟩] }
                | some (PairClass.unchanged, ch) =>
                  { acc2 with unchanged := acc2.unchanged ++
                      [⟨p.1, q.1, (extractMean q.2).getD 0, (extractMean cl).getD 0, ch⟩] }
                | none => acc2) acc
        | _, _ => acc)
    ⟨[], [], [], [], []⟩
  current.foldl
    (fun acc p =>
      if (alookup p.1 baseline).isNone then
        { acc with newBenches := acc.newBenches ++ [p.1] }
      else acc) afterBase

/-! ## `check_regression.py` -/

/-- One benchmark record of a results file read by `check_regression`:
`benchmarks[name].get('mean', 0)` defaults a missing mean to 0. -/
structure RegEntry where
  mean : Option ℚ
deriving Repr, DecidableEq

/-- A loaded results JSON for `check_regression` (its `benchmarks` dict). -/
structure RegFile where
  benchmarks : List (String × RegEntry)
deriving Repr, DecidableEq

/-- A regression record (check_regression.py lines 42-47). -/
structure RegRecord where
  benchmark : String
  regression : ℚ
  current : ℚ
  baseline : ℚ
deriving Repr, DecidableEq

/-- The per-benchmark body of the regression loop of `check_regression`
(check_regression.py lines 33-47): a current benchmark with a baseline entry
of positive mean yields a regression record iff its percentage change
strictly exceeds the threshold; otherwise nothing. -/
def regEntryCheck (t : ℚ) (baseline : List (String × RegEntry))
    (p : String × RegEntry) : Option RegRecord :=
  match alookup p.1 baseline with
  | none => none
  | some be =>
    let ct := p.2.mean.getD 0
    let bt := be.mean.getD 0
    if 0 < bt then
      let pct := (ct - bt) / bt * 100
      if t < pct then some ⟨p.1, pct, ct, bt⟩ else none
    else none

/-- The regression list, one `regEntryCheck` per current benchmark. -/
def regressionsFor (t : ℚ) (current baseline : List (String × RegEntry)) :
    List RegRecord :=
  current.filterMap (regEntryCheck t baseline)

/-- `check_regression` (check_regression.py lines 14-71): a missing baseline
file returns `False` after a printed warning; any exception while reading or
parsing either file also returns `False`; otherwise `True` iff the regression
list is nonempty.  `none` models a missing or unreadable file. -/
def checkRegression (baseline? current? : Option RegFile) (t : ℚ) : Bool :=
  match baseline? with
  | none => false
  | some b =>
    match current? with
    | none => false
    | some c => !(regressionsFor t c.benchmarks b.benchmarks).isEmpty

/-- The `regression_count` value written to `GITHUB_OUTPUT`
(check_regression.py lines 59, 66). -/
def regressionCount (baseline? current? : Option RegFile) (t : ℚ) : ℕ :=
  match baseline?, current? with
  | some b, some c => (regressionsFor t c.benchmarks b.benchmarks).length
  | _, _ => 0

/-- The number of comparable entries: current benchmarks with a baseline
entry of positive mean (the denominator of the specification's
`loss_percentage`, which excludes incomparable results). -/
def comparableCount (current baseline : List (String × RegEntry)) : ℕ :=
  (current.filter
    (fun p =>
      match alookup p.1 baseline with
      | none => false
      | some be => decide (0 < be.mean.getD 0))).length

/-- The exit decision of `main` in check_regression.py (lines 74-97): exit 1
iff any present result file shows a regression against its baseline. -/
def checkRegressionMainExit (runs : List (Option RegFile × Option RegFile))
    (t : ℚ) : ℕ :=
  if runs.any (fun p => checkRegression p.1 p.2 t) then 1 else 0

/-! ## Rendered string-encoded summaries (the observed producer format) -/

/-- `"BenchmarkSummary(mean="`: the head of a string-encoded summary up to
and including the first field key. -/
def lit1 : List Char :=
  ['B', 'e', 'n', 'c', 'h', 'm', 'a', 'r', 'k', 'S', 'u', 'm', 'm', 'a',
   'r', 'y', '(', 'm', 'e', 'a', 'n', '=']

/-- `", std_dev="`. -/
def lit2 : List Char := [',', ' ', 's', 't', 'd', '_', 'd', 'e', 'v', '=']

/-- `", sample_size="`. -/
def lit3 : List Char :=
  [',', ' ', 's', 'a', 'm', 'p', 'l', 'e', '_', 's', 'i', 'z', 'e', '=']

/-- `"BenchmarkSummary("`: `lit1` without its trailing `mean=` key. -/
def pre1 : List Char :=
  ['B', 'e', 'n', 'c', 'h', 'm', 'a', 'r', 'k', 'S', 'u', 'm', 'm', 'a',
   'r', 'y', '(']

/-- `", "`: the separator before a field key. -/
def pre2 : List Char := [',', ' ']

/-- A numeric token, optionally wrapped in `np.float64(...)`. -/
def wrapTok (w : Bool) (t : List Char) : List Char :=
  if w then w64 ++ (t ++ [')']) else t

/-- A string-encoded summary holding the tokens `mT` (mean), `sT` (std_dev)
and `nT` (sample_size), the first two optionally `np.float64(...)`-wrapped:
"BenchmarkSummary(mean=[mT], std_dev=[sT], sample_size=[nT])". -/
def renderSummary (wm ws : Bool) (mT sT nT : List Char) : List Char :=
  lit1 ++ (wrapTok wm mT ++ (lit2 ++ (wrapTok ws sT ++ (lit3 ++ (nT ++ [')'])))))

/-- Position `t` (a tail of the text, followed by an arbitrary continuation)
can never start a match of `pat`: either `pat` fits inside `t` and fails
there, or `pat` overruns `t` and already mismatches within `t`. -/
def deadPos (pat t : List Char) : Bool :=
  if pat.length ≤ t.length then !(pat.isPrefixOf t)
  else !(t == pat.take t.length)

/-- Every nonempty tail of `xs` is a dead position for `pat`. -/
def deadAll (pat xs : List Char) : Bool :=
  xs.tails.all (fun t => t.isEmpty || deadPos pat t)

/-! ## Concrete inputs used in counterexamples and witnesses -/

/-- Empty benchmark data (a JSON object with no benchmarks). -/
def emptyData : BenchmarkData := ⟨[]⟩

/-- One runtime benchmark with a single significant Seen-vs-Rust comparison
won by Seen: one comparison in total. -/
def dOneRuntime : BenchmarkData :=
  ⟨[("runtime_bench",
     { languages := none,
       comparisons := some
         [("seen_vs_rust", ⟨some "seen", some 2, some true⟩)] })]⟩

/-- One runtime benchmark with two significant Seen-vs-Rust comparisons, one
won (speedup 2) and one lost (speedup 0) by Seen: a 50% win rate. -/
def dTwoRuntime : BenchmarkData :=
  ⟨[("runtime_bench",
     { languages := none,
       comparisons := some
         [("seen_vs_rust_a", ⟨some "seen", some 2, some true⟩),
          ("seen_vs_rust_b", ⟨some "seen", some 0, some true⟩)] })]⟩

/-- One lexer benchmark with a single Seen sample of 20M tokens/second. -/
def dOneLexer : BenchmarkData :=
  ⟨[("lexer_bench",
     { languages := some
         [("Seen",
           { metadata := [("tokens_per_second", 20000000)],
             summary := none, average_time := none, times := none })],
       comparisons := none })]⟩

/-- A benchmark entry whose single language has a structured summary with
the given mean. -/
def meanOnlyEntry (m : ℚ) : BenchEntry :=
  { languages := some
      [("seen",
        { metadata := [], summary := some (SummaryVal.dict [("mean", m)]),
          average_time := none, times := none })],
    comparisons := none }

/-- Baseline for the zero-baseline comparison: bench_a has mean 0. -/
def baseZero : List (String × BenchEntry) := [("bench_a", meanOnlyEntry 0)]

/-- Current for the zero-baseline comparison: bench_a has mean 5. -/
def curFive : List (String × BenchEntry) := [("bench_a", meanOnlyEntry 5)]

/-- Ten baseline benchmarks, all of mean 1. -/
def base10 : RegFile :=
  ⟨[("b1", ⟨some 1⟩), ("b2", ⟨some 1⟩), ("b3", ⟨some 1⟩), ("b4", ⟨some 1⟩),
    ("b5", ⟨some 1⟩), ("b6", ⟨some 1⟩), ("b7", ⟨some 1⟩), ("b8", ⟨some 1⟩),
    ("b9", ⟨some 1⟩), ("b10", ⟨some 1⟩)]⟩

/-- Ten current benchmarks: b1 regressed to mean 2 (+100%), the other nine
unchanged at mean 1. -/
def cur10 : RegFile :=
  ⟨[("b1", ⟨some 2⟩), ("b2", ⟨some 1⟩), ("b3", ⟨some 1⟩), ("b4", ⟨some 1⟩),
    ("b5", ⟨some 1⟩), ("b6", ⟨some 1⟩), ("b7", ⟨some 1⟩), ("b8", ⟨some 1⟩),
    ("b9", ⟨some 1⟩), ("b10", ⟨some 1⟩)]⟩

/-- A one-benchmark results file with mean 1. -/
def regOne : RegFile := ⟨[("b1", ⟨some 1⟩)]⟩

/-! ## Helper lemmas -/

/-- Every branch of the lexer validator carries the input claim through. -/
lemma validateLexerClaim_claim (c : PerformanceClaim) (d : BenchmarkData) :
    (validateLexerClaim c d).claim = c := by
  unfold validateLexerClaim insufficientRes
  dsimp only
  repeat' split
  all_goals rfl

/-- Every branch of the memory validator carries the input claim through. -/
lemma validateMemoryClaim_claim (c : PerformanceClaim) (d : BenchmarkData) :
    (validateMemoryClaim c d).claim = c := by
  unfold validateMemoryClaim insufficientRes
  dsimp only
  repeat' split
  all_goals rfl

/-- Every branch of the runtime validator carries the input claim through. -/
lemma validateRuntimeClaim_claim (c : PerformanceClaim) (d : BenchmarkData) :
    (validateRuntimeClaim c d).claim = c := by
  unfold validateRuntimeClaim insufficientRes
  dsimp only
  repeat' split
  all_goals rfl

/-- Every branch of the reactive validator carries the input claim through. -/
lemma validateReactiveClaim_claim (c : PerformanceClaim) (d : BenchmarkData) :
    (validateReactiveClaim c d).claim = c := by
  unfold validateReactiveClaim insufficientRes
  dsimp only
  repeat' split
  all_goals rfl

/-- The dispatcher carries the input claim through. -/
lemma validateSingleClaim_claim (c : PerformanceClaim) (d : BenchmarkData) :
    (validateSingleClaim c d).claim = c := by
  unfold validateSingleClaim
  repeat' split
  · exact validateLexerClaim_claim c d
  · exact validateMemoryClaim_claim c d
  · exact validateRuntimeClaim_claim c d
  · exact validateReactiveClaim_claim c d
  · rfl
  · rfl

/-- The `ValidationResult` produced by the impossible-claim rule. -/
lemma memoryOverhead_result (d : BenchmarkData) :
    validateSingleClaim memoryOverheadClaim d =
      { claim := memoryOverheadClaim, validated := false, actual_value := none,
        actual_unit := none, confidence_level := 1,
        evidence_quality := "strong", deviation_percentage := none,
        recommendation := "Claim is mathematically impossible: negative memory overhead cannot exist. Revise to realistic positive overhead (5-20% typical for memory-safe languages)." } := rfl

/-- The `jit_startup` claim can never validate: its description names neither
rust nor cpp, so the runtime validator always bails out. -/
lemma jitStartup_not_validated (d : BenchmarkData) :
    (validateSingleClaim jitStartupClaim d).validated = false := by
  have hd : validateSingleClaim jitStartupClaim d =
      validateRuntimeClaim jitStartupClaim d := rfl
  have h1 : lowerContains jitStartupClaim.description "rust" = false := by decide
  have h2 : lowerContains jitStartupClaim.description "cpp" = false := by decide
  rw [hd]
  unfold validateRuntimeClaim insufficientRes
  dsimp only
  split
  · rfl
  · simp [h1, h2]

/-- The critical results of a validation pass are exactly those of the three
critical catalog claims, in catalog order. -/
lemma critical_filter (d : BenchmarkData) :
    (validateClaims d).filter (fun r => r.claim.critical) =
      [validateSingleClaim lexerSpeedClaim d,
       validateSingleClaim memoryOverheadClaim d,
       validateSingleClaim jitStartupClaim d] := by
  simp only [validateClaims, defineClaims, List.map_cons, List.map_nil,
    List.filter_cons, List.filter_nil, validateSingleClaim_claim,
    lexerSpeedClaim, memoryOverheadClaim, jitStartupClaim]
  norm_num

/-- The claims-validation entry point always exits with status 2: the
critical `memory_overhead` claim always fails, so the critical validation
rate is at most 2/3. -/
lemma exit_always_two (d : BenchmarkData) : validateClaimsExit d = 2 := by
  have hM := memoryOverhead_result d
  have hJ := jitStartup_not_validated d
  unfold validateClaimsExit generateSummary
  dsimp only
  rw [critical_filter d, hM]
  cases hL : (validateSingleClaim lexerSpeedClaim d).validated
  · simp only [List.filter_cons, List.filter_nil, hL, hJ]
    norm_num
  · simp only [List.filter_cons, List.filter_nil, hL, hJ]
    norm_num

/-! ## Claim theorems -/

/-- C1: For every benchmark_data input, validating the catalog claim
memory_overhead (claimed_value = -58, claimed_unit = "percent", description
containing "overhead", benchmark_category "memory") yields a ValidationResult
with validated = false, evidence_quality = "strong", confidence_level = 1.0,
and a recommendation stating the impossibility, independent of any measured
evidence in benchmark_data. -/
theorem c1_memory_claim_always_rejected (d : BenchmarkData) :
    validateSingleClaim memoryOverheadClaim d =
      { claim := memoryOverheadClaim, validated := false, actual_value := none,
        actual_unit := none, confidence_level := 1,
        evidence_quality := "strong", deviation_percentage := none,
        recommendation := "Claim is mathematically impossible: negative memory overhead cannot exist. Revise to realistic positive overhead (5-20% typical for memory-safe languages)." } :=
  memoryOverhead_result d

/-- C5: For every benchmark_data input that loads as JSON, the
claims-validation entry point returns the failing exit status 2: the critical
memory_overhead claim is always resolved to validated = false, so the
critical validation rate is strictly below 1.0 in every run and exit status 0
is unreachable. -/
theorem c5_claims_exit_always_two (d : BenchmarkData) :
    (generateSummary (validateClaims d)).critical_validation_rate < 1 ∧
      validateClaimsExit d = 2 := by
  have h2 := exit_always_two d
  refine ⟨?_, h2⟩
  by_contra h
  unfold validateClaimsExit at h2
  rw [if_neg h] at h2
  exact absurd h2 (by norm_num)

/-- C4: The claims-validation exit status is 0 exactly when all critical
claims are validated, and the regression-gate exit status is 0 exactly when
no regression is detected in any checked file; a failing critical claim
forces a nonzero claims-validation exit regardless of the other results. -/
theorem c4_exit_status_contract (d : BenchmarkData)
    (runs : List (Option RegFile × Option RegFile)) (t : ℚ) :
    (validateClaimsExit d = 0 ↔
      ∀ r ∈ (validateClaims d).filter (fun x => x.claim.critical),
        r.validated = true) ∧
    (checkRegressionMainExit runs t = 0 ↔
      ∀ p ∈ runs, checkRegression p.1 p.2 t = false) ∧
    (∀ r ∈ (validateClaims d).filter (fun x => x.claim.critical),
      r.validated = false → validateClaimsExit d ≠ 0) := by
  refine ⟨?_, ?_, ?_⟩
  · constructor
    · intro h0
      rw [exit_always_two d] at h0
      exact absurd h0 (by norm_num)
    · intro hall
      exfalso
      have hmem : validateSingleClaim memoryOverheadClaim d ∈
          (validateClaims d).filter (fun x => x.claim.critical) := by
        rw [critical_filter d]
        simp
      have := hall _ hmem
      rw [memoryOverhead_result d] at this
      exact absurd this (by simp)
  · cases h : runs.any (fun p => checkRegression p.1 p.2 t)
    · simp only [checkRegressionMainExit, h, Bool.false_eq_true, if_false]
      simp only [List.any_eq_false] at h
      constructor
      · intro _ p hp
        have := h p hp
        simpa using this
      · intro _
        trivial
    · simp only [checkRegressionMainExit, h, if_true]
      simp only [List.any_eq_true] at h
      constructor
      · intro h1
        exact absurd h1 (by norm_num)
      · intro hall
        obtain ⟨p, hp, hpt⟩ := h
        rw [hall p hp] at hpt
        exact absurd hpt (by simp)
  · intro r _ _
    rw [exit_always_two d]
    norm_num

/-- Witness for C4 at concrete inputs: an empty run list yields the passing
regression exit, and empty benchmark data (whose memory_overhead result fails
validation) yields a nonzero claims exit. -/
theorem c4_exit_status_contract_witness :
    checkRegressionMainExit [] (5 : ℚ) = 0 ∧ validateClaimsExit emptyData ≠ 0 := by
  constructor
  · exact (c4_exit_status_contract emptyData [] 5).2.1.mpr
      (by intro p hp; cases hp)
  · refine (c4_exit_status_contract emptyData [] 5).2.2
      (validateSingleClaim memoryOverheadClaim emptyData) ?_ ?_
    · rw [critical_filter emptyData]
      simp
    · rw [memoryOverhead_result emptyData]

/-- C2 counterexample: a pair of summaries with baseline_mean = 1 > 0 and
current_mean = 0 has change_percent = -100, strictly below -threshold, yet
the comparator classifies the pair as nothing at all (Python evaluates
`if baseline_mean and current_mean` and 0.0 is falsy), so the claimed
improvement classification does not happen. -/
theorem c2_counterexample :
    classifyPair 10 (some 1) (some 0) = none ∧
      ((0 : ℚ) - 1) / 1 * 100 < -10 := by
  constructor
  · rfl
  · norm_num

/-- C2 amended: for every pair with baseline_mean > 0 AND current_mean ≠ 0
(zero current means are dropped by the comparator, see the counterexample),
and a nonnegative threshold, change_percent is exactly
(current - baseline)/baseline * 100 and the pair is classified regression iff
change_percent > threshold, improvement iff change_percent < -threshold, and
unchanged otherwise; equality with the threshold is not a regression. -/
theorem c2_threshold_classification (t b c : ℚ) (ht : 0 ≤ t) (hb : 0 < b)
    (hc : c ≠ 0) :
    ∃ cls, classifyPair t (some b) (some c) = some (cls, (c - b) / b * 100) ∧
      (cls = PairClass.regression ↔ t < (c - b) / b * 100) ∧
      (cls = PairClass.improvement ↔ (c - b) / b * 100 < -t) ∧
      (cls = PairClass.unchanged ↔
        ((c - b) / b * 100 ≤ t ∧ -t ≤ (c - b) / b * 100)) := by
  have hb0 : b ≠ 0 := ne_of_gt hb
  have key : classifyPair t (some b) (some c) =
      (if t < (c - b) / b * 100 then
        some (PairClass.regression, (c - b) / b * 100)
      else if (c - b) / b * 100 < -t then
        some (PairClass.improvement, (c - b) / b * 100)
      else some (PairClass.unchanged, (c - b) / b * 100)) := by
    unfold classifyPair
    dsimp only
    rw [if_neg hb0, if_neg hc]
  by_cases h1 : t < (c - b) / b * 100
  · refine ⟨PairClass.regression, ?_, ?_, ?_, ?_⟩
    · rw [key, if_pos h1]
    · exact iff_of_true rfl h1
    · refine iff_of_false (by simp) ?_
      intro h2
      linarith
    · refine iff_of_false (by simp) ?_
      intro h2
      linarith [h2.1]
  · by_cases h2 : (c - b) / b * 100 < -t
    · refine ⟨PairClass.improvement, ?_, ?_, ?_, ?_⟩
      · rw [key, if_neg h1, if_pos h2]
      · exact iff_of_false (by simp) h1
      · exact iff_of_true rfl h2
      · refine iff_of_false (by simp) ?_
        intro h3
        linarith [h3.2]
    · refine ⟨PairClass.unchanged, ?_, ?_, ?_, ?_⟩
      · rw [key, if_neg h1, if_neg h2]
      · exact iff_of_false (by simp) h1
      · exact iff_of_false (by simp) h2
      · exact iff_of_true rfl ⟨not_lt.mp h1, not_lt.mp h2⟩

/-- Witness for C2 at a concrete boundary input: baseline 1, current 1.1,
threshold 10, so change_percent is exactly the threshold. -/
theorem c2_threshold_classification_witness :
    (0 : ℚ) ≤ 10 ∧ (0 : ℚ) < 1 ∧ ((11 : ℚ) / 10 ≠ 0) ∧
      ∃ cls, classifyPair 10 (some 1) (some (11 / 10)) =
        some (cls, ((11 : ℚ) / 10 - 1) / 1 * 100) := by
  refine ⟨by norm_num, by norm_num, by norm_num, ?_⟩
  obtain ⟨cls, h, -, -, -⟩ :=
    c2_threshold_classification 10 1 (11 / 10) (by norm_num) (by norm_num)
      (by norm_num)
  exact ⟨cls, h⟩

/-- C6 counterexample: a benchmark whose baseline mean is 0 (current mean 5)
is produced in none of the comparator's output lists: it is silently dropped
rather than counted and reported as an incomparable outcome. -/
theorem c6_counterexample :
    comparePerf 5 baseZero curFive =
      { regressions := [], improvements := [], unchanged := [],
        missing := [], newBenches := [] } := rfl

/-- C6 amended: comparisons whose baseline mean is zero or missing (or whose
current mean is zero or missing) yield no per-pair result at all; they are
excluded from every classification list of the output, dropped rather than
reported as incomparable, and sample size is never consulted. -/
theorem c6_zero_mean_pairs_dropped (t : ℚ) (bm cm : Option ℚ)
    (h : bm = none ∨ bm = some 0 ∨ cm = none ∨ cm = some 0) :
    classifyPair t bm cm = none := by
  rcases h with rfl | rfl | rfl | rfl
  · rfl
  · cases cm with
    | none => rfl
    | some c => simp [classifyPair]
  · cases bm with
    | none => rfl
    | some b => rfl
  · cases bm with
    | none => rfl
    | some b =>
      by_cases hb : b = (0 : ℚ)
      · simp [classifyPair, hb]
      · simp [classifyPair, hb]

/-- Witness for C6 at a concrete input: a zero baseline mean against a
current mean of 1 is dropped. -/
theorem c6_zero_mean_pairs_dropped_witness :
    classifyPair 5 (some 0) (some 1) = none :=
  c6_zero_mean_pairs_dropped 5 (some 0) (some 1) (Or.inr (Or.inl rfl))

/-- The length of a `filterMap` is the count of elements the function keeps. -/
lemma length_filterMap_count (f : α → Option β) (l : List α) :
    (l.filterMap f).length = l.countP (fun a => (f a).isSome) := by
  induction l with
  | nil => rfl
  | cons a l ih =>
    cases h : f a <;>
      simp [List.filterMap_cons, h, List.countP_cons, ih]

/-- Characterisation of a nonempty per-entry regression check. -/
lemma regEntryCheck_ne_none_iff (t : ℚ) (bas : List (String × RegEntry))
    (p : String × RegEntry) :
    (regEntryCheck t bas p ≠ none) ↔
      ∃ be, alookup p.1 bas = some be ∧ 0 < be.mean.getD 0 ∧
        t < (p.2.mean.getD 0 - be.mean.getD 0) / be.mean.getD 0 * 100 := by
  unfold regEntryCheck
  cases ha : alookup p.1 bas with
  | none => simp
  | some be =>
    dsimp only
    by_cases h0 : 0 < be.mean.getD 0
    · rw [if_pos h0]
      by_cases h1 : t < (p.2.mean.getD 0 - be.mean.getD 0) / be.mean.getD 0 * 100
      · rw [if_pos h1]
        simp [h0, h1]
      · rw [if_neg h1]
        simp [h0, h1]
    · rw [if_neg h0]
      simp [h0]

/-- The kept/dropped decision of the per-entry check as a boolean. -/
lemma regEntryCheck_isSome_eq (t : ℚ) (bas : List (String × RegEntry))
    (p : String × RegEntry) :
    (regEntryCheck t bas p).isSome =
      (alookup p.1 bas).elim false (fun be =>
        decide (0 < be.mean.getD 0) &&
          decide (t < (p.2.mean.getD 0 - be.mean.getD 0) /
            be.mean.getD 0 * 100)) := by
  unfold regEntryCheck
  cases ha : alookup p.1 bas with
  | none => rfl
  | some be =>
    dsimp only [Option.elim]
    by_cases h0 : 0 < be.mean.getD 0
    · rw [if_pos h0]
      by_cases h1 : t < (p.2.mean.getD 0 - be.mean.getD 0) / be.mean.getD 0 * 100
      · rw [if_pos h1]
        simp [h0, h1]
      · rw [if_neg h1]
        simp [h0, h1]
    · rw [if_neg h0]
      simp [h0]

/-- C7 counterexample: a missing baseline file (and likewise a read error)
makes the regression checker return false — the very value that means "no
regression" on a clean passing run — so the gate exits 0; the condition is
not surfaced as an insufficient/no-data outcome distinct from a pass. -/
theorem c7_counterexample :
    checkRegression none (some regOne) 5 = false ∧
      checkRegressionMainExit [(none, some regOne)] 5 = 0 ∧
      checkRegression (some regOne) (some regOne) 5 = false := by
  refine ⟨rfl, rfl, ?_⟩
  norm_num [checkRegression, regressionsFor, regEntryCheck, alookup, regOne,
    List.filterMap_cons]

/-- C7 amended: the claims validator surfaces missing evidence as
evidence_quality = "insufficient" with validated = false (never a misleading
"validated"); the regression checker, however, resolves a missing baseline
file to the same false ("no regression") verdict as a clean pass,
distinguishable only by a logged warning. -/
theorem c7_missing_evidence (c : PerformanceClaim) (d : BenchmarkData)
    (cf : Option RegFile) (t : ℚ)
    (h : (d.benchmarks.filter (fun p => lowerContains p.1 "lexer")).isEmpty = true) :
    ((validateLexerClaim c d).evidence_quality = "insufficient" ∧
      (validateLexerClaim c d).validated = false) ∧
    checkRegression none cf t = false := by
  constructor
  · unfold validateLexerClaim
    dsimp only
    rw [if_pos h]
    exact ⟨rfl, rfl⟩
  · rfl

/-- Witness for C7 at concrete inputs: empty benchmark data has no lexer
benchmarks; a missing baseline against a concrete current file yields false. -/
theorem c7_missing_evidence_witness :
    ((validateLexerClaim lexerSpeedClaim emptyData).evidence_quality =
        "insufficient" ∧
      (validateLexerClaim lexerSpeedClaim emptyData).validated = false) ∧
    checkRegression none (some regOne) 5 = false :=
  c7_missing_evidence lexerSpeedClaim emptyData (some regOne) 5 rfl

/-- C3 counterexample: ten comparable benchmarks of which exactly one
regresses (by +100%).  The specified rule loss_percentage = 1/10 * 100 = 10
is not strictly above the threshold 10, so the specified gate would pass;
the code's gate nevertheless fails (regression found), because it fails on
any single regression rather than on a loss percentage. -/
theorem c3_counterexample :
    checkRegression (some base10) (some cur10) 10 = true ∧
      regressionCount (some base10) (some cur10) 10 = 1 ∧
      comparableCount cur10.benchmarks base10.benchmarks = 10 ∧
      ¬ ((1 : ℚ) / 10 * 100 > 10) := by
  refine ⟨?_, ?_, ?_, by norm_num⟩
  · norm_num [checkRegression, regressionsFor, regEntryCheck, alookup,
      base10, cur10, List.filterMap_cons]
  · norm_num [regressionCount, regressionsFor, regEntryCheck, alookup,
      base10, cur10, List.filterMap_cons]
  · norm_num [comparableCount, alookup, base10, cur10, List.filter_cons]

/-- C3 amended: the regression gate computes no loss percentage; it fails iff
at least one comparable benchmark (present in the baseline with positive
baseline mean) has an individual change strictly exceeding the
per-comparison threshold, and regression_count counts exactly those
entries. -/
theorem c3_gate_characterization (b c : RegFile) (t : ℚ) :
    (checkRegression (some b) (some c) t = true ↔
      ∃ p ∈ c.benchmarks, ∃ be, alookup p.1 b.benchmarks = some be ∧
        0 < be.mean.getD 0 ∧
        t < (p.2.mean.getD 0 - be.mean.getD 0) / be.mean.getD 0 * 100) ∧
    regressionCount (some b) (some c) t =
      c.benchmarks.countP (fun p =>
        (alookup p.1 b.benchmarks).elim false (fun be =>
          decide (0 < be.mean.getD 0) &&
            decide (t < (p.2.mean.getD 0 - be.mean.getD 0) /
              be.mean.getD 0 * 100))) := by
  constructor
  · show (!(regressionsFor t c.benchmarks b.benchmarks).isEmpty) = true ↔ _
    rw [Bool.not_eq_true']
    rw [List.isEmpty_eq_false_iff_exists_mem]
    constructor
    · intro ⟨r, hr⟩
      unfold regressionsFor at hr
      rw [List.mem_filterMap] at hr
      obtain ⟨p, hp, hfp⟩ := hr
      refine ⟨p, hp, ?_⟩
      exact (regEntryCheck_ne_none_iff t b.benchmarks p).mp (by rw [hfp]; simp)
    · intro ⟨p, hp, hcond⟩
      have hne : regEntryCheck t b.benchmarks p ≠ none :=
        (regEntryCheck_ne_none_iff t b.benchmarks p).mpr hcond
      obtain ⟨r, hr⟩ := Option.ne_none_iff_exists.mp hne
      refine ⟨r, ?_⟩
      unfold regressionsFor
      rw [List.mem_filterMap]
      exact ⟨p, hp, hr.symm⟩
  · show (regressionsFor t c.benchmarks b.benchmarks).length = _
    unfold regressionsFor
    rw [length_filterMap_count]
    exact List.countP_congr
      (fun p _ => by rw [regEntryCheck_isSome_eq t b.benchmarks p])

/-- Evaluation of the lexer validator on its evidence-bearing path. -/
lemma lexerClaim_eval (c : PerformanceClaim) (d : BenchmarkData)
    (hB : (d.benchmarks.filter (fun p => lowerContains p.1 "lexer")).isEmpty = false)
    (hV : (seenLexerValues d).isEmpty = false)
    (hG : c.comparison_type = "greater_than") :
    (validateLexerClaim c d).validated =
        decide (c.claimed_value <
          (seenLexerValues d).sum / ((seenLexerValues d).length : ℚ)) ∧
      (validateLexerClaim c d).actual_value =
        some ((seenLexerValues d).sum / ((seenLexerValues d).length : ℚ)) ∧
      (validateLexerClaim c d).deviation_percentage =
        some (((seenLexerValues d).sum / ((seenLexerValues d).length : ℚ) -
          c.claimed_value) / c.claimed_value * 100) ∧
      (validateLexerClaim c d).confidence_level =
        min (((seenLexerValues d).length : ℚ) / 10) 1 ∧
      (validateLexerClaim c d).evidence_quality =
        (if 10 ≤ (seenLexerValues d).length then "strong"
         else if 5 ≤ (seenLexerValues d).length then "moderate"
         else "weak") := by
  unfold validateLexerClaim
  dsimp only
  simp only [hB, hV, Bool.false_eq_true, if_false, hG]
  simp only [beq_self_eq_true, if_true]
  refine ⟨?_, ?_, ?_, ?_, ?_⟩ <;> trivial

/-- Evaluation of the runtime validator for a rust-targeted claim with at
least one comparison. -/
lemma runtimeClaim_eval (c : PerformanceClaim) (d : BenchmarkData)
    (hB : (d.benchmarks.filter (fun p =>
      lowerContains p.1 "runtime" || lowerContains p.1 "codegen" ||
        lowerContains p.1 "execution")).isEmpty = false)
    (hR : lowerContains c.description "rust" = true)
    (hT : (runtimeTally "rust" d).2.2 ≠ 0) :
    (validateRuntimeClaim c d).validated =
        decide ((3 / 5 : ℚ) < ((runtimeTally "rust" d).1 : ℚ) /
          ((runtimeTally "rust" d).2.2 : ℚ)) ∧
      (validateRuntimeClaim c d).actual_value =
        some (((runtimeTally "rust" d).1 : ℚ) /
          ((runtimeTally "rust" d).2.2 : ℚ) * 100) ∧
      (validateRuntimeClaim c d).confidence_level =
        min (((runtimeTally "rust" d).2.2 : ℚ) / 10) 1 ∧
      (validateRuntimeClaim c d).evidence_quality =
        (if 10 ≤ (runtimeTally "rust" d).2.2 then "strong" else "moderate") ∧
      (validateRuntimeClaim c d).deviation_percentage = none := by
  unfold validateRuntimeClaim
  dsimp only
  simp only [hB, hR, Bool.false_eq_true, if_false, if_true]
  rw [if_neg hT]
  refine ⟨?_, ?_, ?_, ?_, ?_⟩ <;> trivial

/-- The jit_startup claim reaches the runtime validator but names no target
language, so it always comes back insufficient with no actual value. -/
lemma jit_insufficient (d : BenchmarkData) :
    (validateRuntimeClaim jitStartupClaim d).validated = false ∧
      (validateRuntimeClaim jitStartupClaim d).actual_value = none := by
  have h1 : lowerContains jitStartupClaim.description "rust" = false := by decide
  have h2 : lowerContains jitStartupClaim.description "cpp" = false := by decide
  unfold validateRuntimeClaim
  dsimp only
  split
  · exact ⟨rfl, rfl⟩
  · simp [h1, h2, insufficientRes]

/-- C8 counterexample: for the faster_than_rust claim (comparison_type
greater_than, claimed_value 1) on data with a 50% win rate, the actual value
50 strictly exceeds the claimed value 1, yet validated = false (the code
requires a win rate above 60%), and deviation_percentage is not the
(actual - claimed)/claimed * 100 value but None. -/
theorem c8_counterexample :
    fasterThanRustClaim.comparison_type = "greater_than" ∧
      fasterThanRustClaim.claimed_value = 1 ∧
      (validateRuntimeClaim fasterThanRustClaim dTwoRuntime).actual_value =
        some 50 ∧
      ((1 : ℚ) < 50) ∧
      (validateRuntimeClaim fasterThanRustClaim dTwoRuntime).validated = false ∧
      (validateRuntimeClaim fasterThanRustClaim dTwoRuntime).deviation_percentage
        = none := by
  have htally : runtimeTally "rust" dTwoRuntime = (1, 1, 2) := rfl
  obtain ⟨hv, ha, -, -, hd⟩ :=
    runtimeClaim_eval fasterThanRustClaim dTwoRuntime rfl rfl
      (by rw [htally]; norm_num)
  rw [htally] at hv ha
  norm_num at hv ha
  exact ⟨rfl, rfl, ha, by norm_num, hv, hd⟩

/-- C8 amended: the greater_than rule (validated = actual > claimed,
deviation = (actual - claimed)/claimed * 100) holds on the lexer path; the
runtime-category claims do not follow it — a rust-targeted runtime claim is
validated iff the win rate exceeds 3/5, with actual_value = win rate * 100
and no deviation; and jit_startup's less_than comparison is never evaluated
(no target language, so its result is insufficient with no actual value). -/
theorem c8_comparison_rules :
    (∀ (c : PerformanceClaim) (d : BenchmarkData),
      (d.benchmarks.filter (fun p => lowerContains p.1 "lexer")).isEmpty = false →
      (seenLexerValues d).isEmpty = false →
      c.comparison_type = "greater_than" →
      ((validateLexerClaim c d).validated = true ↔
        c.claimed_value <
          (seenLexerValues d).sum / ((seenLexerValues d).length : ℚ)) ∧
      (validateLexerClaim c d).deviation_percentage =
        some (((seenLexerValues d).sum / ((seenLexerValues d).length : ℚ) -
          c.claimed_value) / c.claimed_value * 100)) ∧
    (∀ (c : PerformanceClaim) (d : BenchmarkData),
      (d.benchmarks.filter (fun p =>
        lowerContains p.1 "runtime" || lowerContains p.1 "codegen" ||
          lowerContains p.1 "execution")).isEmpty = false →
      lowerContains c.description "rust" = true →
      (runtimeTally "rust" d).2.2 ≠ 0 →
      ((validateRuntimeClaim c d).validated = true ↔
        (3 / 5 : ℚ) < ((runtimeTally "rust" d).1 : ℚ) /
          ((runtimeTally "rust" d).2.2 : ℚ)) ∧
      (validateRuntimeClaim c d).actual_value =
        some (((runtimeTally "rust" d).1 : ℚ) /
          ((runtimeTally "rust" d).2.2 : ℚ) * 100) ∧
      (validateRuntimeClaim c d).deviation_percentage = none) ∧
    (∀ d : BenchmarkData,
      (validateRuntimeClaim jitStartupClaim d).validated = false ∧
      (validateRuntimeClaim jitStartupClaim d).actual_value = none) := by
  refine ⟨?_, ?_, jit_insufficient⟩
  · intro c d hB hV hG
    obtain ⟨hv, -, hdev, -, -⟩ := lexerClaim_eval c d hB hV hG
    refine ⟨?_, hdev⟩
    rw [hv]
    exact decide_eq_true_iff
  · intro c d hB hR hT
    obtain ⟨hv, ha, -, -, hd⟩ := runtimeClaim_eval c d hB hR hT
    refine ⟨?_, ha, hd⟩
    rw [hv]
    exact decide_eq_true_iff

/-- Witness for C8 at a concrete input: one lexer benchmark with a single
20M tokens/second sample for the greater_than rule. -/
theorem c8_comparison_rules_witness :
    (validateLexerClaim lexerSpeedClaim dOneLexer).validated = true ↔
      lexerSpeedClaim.claimed_value <
        (seenLexerValues dOneLexer).sum /
          ((seenLexerValues dOneLexer).length : ℚ) :=
  (c8_comparison_rules.1 lexerSpeedClaim dOneLexer rfl rfl rfl).1

/-- C9 counterexample: a runtime claim backed by exactly one comparison
(0 < 1 < 5 samples) gets evidence_quality "moderate", not the "weak" the
claim requires for fewer than five samples. -/
theorem c9_counterexample :
    (runtimeTally "rust" dOneRuntime).2.2 = 1 ∧
      (validateRuntimeClaim fasterThanRustClaim dOneRuntime).evidence_quality =
        "moderate" ∧
      (validateRuntimeClaim fasterThanRustClaim dOneRuntime).evidence_quality ≠
        "weak" := by
  have htally : runtimeTally "rust" dOneRuntime = (1, 0, 1) := rfl
  obtain ⟨-, -, -, hq, -⟩ :=
    runtimeClaim_eval fasterThanRustClaim dOneRuntime rfl rfl
      (by rw [htally]; norm_num)
  rw [htally] at hq
  norm_num at hq
  exact ⟨rfl, hq, by rw [hq]; decide⟩

/-- The confidence and evidence-quality fields of the lexer validator on its
evidence-bearing path do not depend on the claim's comparison type. -/
lemma lexerClaim_quality (c : PerformanceClaim) (d : BenchmarkData)
    (hB : (d.benchmarks.filter (fun p => lowerContains p.1 "lexer")).isEmpty = false)
    (hV : (seenLexerValues d).isEmpty = false) :
    (validateLexerClaim c d).confidence_level =
        min (((seenLexerValues d).length : ℚ) / 10) 1 ∧
      (validateLexerClaim c d).evidence_quality =
        (if 10 ≤ (seenLexerValues d).length then "strong"
         else if 5 ≤ (seenLexerValues d).length then "moderate"
         else "weak") := by
  unfold validateLexerClaim
  dsimp only
  simp only [hB, hV, Bool.false_eq_true, if_false]
  refine ⟨?_, ?_⟩ <;> trivial

/-- C9 amended: confidence_level = min(n/10, 1) and the four-bucket
evidence-quality mapping (strong >= 10, moderate 5..9, weak 1..4,
insufficient when no evidence) hold on the lexer path; the runtime path uses
the same confidence formula but buckets only into strong (>= 10 comparisons)
and moderate (everything below 10); the memory, reactive and compilation
paths use fixed constants not derived from sample counts. -/
theorem c9_confidence_buckets :
    (∀ (c : PerformanceClaim) (d : BenchmarkData),
      (d.benchmarks.filter (fun p => lowerContains p.1 "lexer")).isEmpty = false →
      (seenLexerValues d).isEmpty = false →
      (validateLexerClaim c d).confidence_level =
          min (((seenLexerValues d).length : ℚ) / 10) 1 ∧
        ((validateLexerClaim c d).evidence_quality = "strong" ↔
          10 ≤ (seenLexerValues d).length) ∧
        ((validateLexerClaim c d).evidence_quality = "moderate" ↔
          (5 ≤ (seenLexerValues d).length ∧ (seenLexerValues d).length < 10)) ∧
        ((validateLexerClaim c d).evidence_quality = "weak" ↔
          (seenLexerValues d).length < 5)) ∧
    (∀ (c : PerformanceClaim) (d : BenchmarkData),
      (seenLexerValues d).isEmpty = true →
      (validateLexerClaim c d).evidence_quality = "insufficient" ∧
        (validateLexerClaim c d).confidence_level = 0) ∧
    (∀ (c : PerformanceClaim) (d : BenchmarkData),
      (d.benchmarks.filter (fun p =>
        lowerContains p.1 "runtime" || lowerContains p.1 "codegen" ||
          lowerContains p.1 "execution")).isEmpty = false →
      lowerContains c.description "rust" = true →
      (runtimeTally "rust" d).2.2 ≠ 0 →
      (validateRuntimeClaim c d).confidence_level =
          min (((runtimeTally "rust" d).2.2 : ℚ) / 10) 1 ∧
        ((validateRuntimeClaim c d).evidence_quality = "strong" ↔
          10 ≤ (runtimeTally "rust" d).2.2) ∧
        ((validateRuntimeClaim c d).evidence_quality = "moderate" ↔
          (runtimeTally "rust" d).2.2 < 10)) := by
  refine ⟨?_, ?_, ?_⟩
  · intro c d hB hV
    obtain ⟨hconf, hq⟩ := lexerClaim_quality c d hB hV
    refine ⟨hconf, ?_, ?_, ?_⟩
    · rw [hq]
      by_cases h10 : 10 ≤ (seenLexerValues d).length
      · rw [if_pos h10]
        simp [h10]
      · rw [if_neg h10]
        by_cases h5 : 5 ≤ (seenLexerValues d).length
        · rw [if_pos h5]
          refine iff_of_false (by decide) h10
        · rw [if_neg h5]
          refine iff_of_false (by decide) h10
    · rw [hq]
      by_cases h10 : 10 ≤ (seenLexerValues d).length
      · rw [if_pos h10]
        refine iff_of_false (by decide) (fun h => absurd h10 (not_le.mpr h.2))
      · rw [if_neg h10]
        by_cases h5 : 5 ≤ (seenLexerValues d).length
        · rw [if_pos h5]
          exact iff_of_true rfl ⟨h5, not_le.mp h10⟩
        · rw [if_neg h5]
          refine iff_of_false (by decide) (fun h => absurd h.1 h5)
    · rw [hq]
      by_cases h10 : 10 ≤ (seenLexerValues d).length
      · rw [if_pos h10]
        refine iff_of_false (by decide) (fun h => absurd h10 (by omega))
      · rw [if_neg h10]
        by_cases h5 : 5 ≤ (seenLexerValues d).length
        · rw [if_pos h5]
          refine iff_of_false (by decide) (fun h => absurd h5 (by omega))
        · rw [if_neg h5]
          exact iff_of_true rfl (by omega)
  · intro c d hV
    unfold validateLexerClaim
    dsimp only
    by_cases hB : (d.benchmarks.filter
        (fun p => lowerContains p.1 "lexer")).isEmpty
    · rw [if_pos hB]
      exact ⟨rfl, rfl⟩
    · rw [if_neg hB, if_pos hV]
      exact ⟨rfl, rfl⟩
  · intro c d hB hR hT
    obtain ⟨-, -, hconf, hq, -⟩ := runtimeClaim_eval c d hB hR hT
    refine ⟨hconf, ?_, ?_⟩
    · rw [hq]
      by_cases h10 : 10 ≤ (runtimeTally "rust" d).2.2
      · rw [if_pos h10]
        simp [h10]
      · rw [if_neg h10]
        refine iff_of_false (by decide) h10
    · rw [hq]
      by_cases h10 : 10 ≤ (runtimeTally "rust" d).2.2
      · rw [if_pos h10]
        refine iff_of_false (by decide) (fun h => absurd h10 (by omega))
      · rw [if_neg h10]
        exact iff_of_true rfl (not_le.mp h10)

/-- Witness for C9 at a concrete input: one lexer benchmark with one
sample. -/
theorem c9_confidence_buckets_witness :
    (validateLexerClaim lexerSpeedClaim dOneLexer).confidence_level =
        min (((seenLexerValues dOneLexer).length : ℚ) / 10) 1 ∧
      ((validateLexerClaim lexerSpeedClaim dOneLexer).evidence_quality =
        "weak" ↔ (seenLexerValues dOneLexer).length < 5) := by
  obtain ⟨h1, -, -, h4⟩ :=
    c9_confidence_buckets.1 lexerSpeedClaim dOneLexer rfl rfl
  exact ⟨h1, h4⟩

/-! ## Lemmas about the regex-search embedding -/

/-- A pattern no longer than `t` matches `t ++ ys` iff it matches `t`. -/
lemma ipo_append_left (pat t ys : List Char) (h : pat.length ≤ t.length) :
    pat.isPrefixOf (t ++ ys) = pat.isPrefixOf t := by
  induction pat generalizing t with
  | nil => simp [List.isPrefixOf]
  | cons p ps ih =>
    cases t with
    | nil => simp at h
    | cons c t =>
      show List.isPrefixOf (p :: ps) (c :: (t ++ ys)) = _
      simp only [List.isPrefixOf]
      rw [ih t (by simpa using h)]

/-- If a pattern longer than `t` matches `t ++ ys`, it fixes all of `t`. -/
lemma take_eq_of_ipo_append (pat t ys : List Char)
    (h : pat.isPrefixOf (t ++ ys) = true) (hlen : t.length < pat.length) :
    t = pat.take t.length := by
  induction pat generalizing t with
  | nil => simp at hlen
  | cons p ps ih =>
    cases t with
    | nil => rfl
    | cons c t =>
      rw [show (c :: t) ++ ys = c :: (t ++ ys) from rfl] at h
      simp only [List.isPrefixOf, Bool.and_eq_true] at h
      have hc : p = c := beq_iff_eq.mp h.1
      have ht := ih t h.2 (by simpa using hlen)
      rw [show (c :: t).length = t.length + 1 from rfl, List.take_succ_cons]
      rw [← hc, ← ht]

/-- A list is a prefix of itself extended. -/
lemma ipo_refl_append (l t : List Char) : l.isPrefixOf (l ++ t) = true := by
  induction l with
  | nil => simp [List.isPrefixOf]
  | cons c l ih => simp [List.isPrefixOf, ih]

/-- A character outside the numeric token class differs from every character
inside it. -/
lemma ne_of_numTok (x c : Char) (hx : numTokChar x = false)
    (h : numTokChar c = true) : (x == c) = false := by
  cases hb : x == c
  · rfl
  · exfalso
    have hxc : x = c := beq_iff_eq.mp hb
    rw [hxc, h] at hx
    exact absurd hx (by decide)

/-- Digits belong to the numeric token class. -/
lemma digit_numTok (c : Char) (h : c.isDigit = true) : numTokChar c = true := by
  unfold numTokChar
  rw [h]
  rfl

/-- `takeWhile` over a good run followed by a breaking character. -/
lemma takeWhile_append_all (P : Char → Bool) (xs : List Char)
    (h : ∀ c ∈ xs, P c = true) (y : Char) (hy : P y = false) (ys : List Char) :
    (xs ++ y :: ys).takeWhile P = xs := by
  induction xs with
  | nil => simp [List.takeWhile_cons, hy]
  | cons c tl ih =>
    rw [show (c :: tl) ++ y :: ys = c :: (tl ++ y :: ys) from rfl]
    rw [List.takeWhile_cons, h c (by simp), ih (fun a ha => h a (by simp [ha]))]
    simp

/-- Scanning passes over a block in which every position is dead. -/
lemma searchWith_skip (p : Char) (ps : List Char)
    (m : List Char → Option (List Char)) (xs ys : List Char)
    (h : deadAll (p :: ps) xs = true) :
    searchWith (p :: ps) m (xs ++ ys) = searchWith (p :: ps) m ys := by
  induction xs with
  | nil => rfl
  | cons c tl ih =>
    simp only [deadAll, List.tails_cons, List.all_cons, Bool.and_eq_true] at h
    have hpos : deadPos (p :: ps) (c :: tl) = true := by simpa using h.1
    have hrest : deadAll (p :: ps) tl = true := by
      simpa [deadAll] using h.2
    have hfalse : (p :: ps).isPrefixOf (c :: (tl ++ ys)) = false := by
      unfold deadPos at hpos
      by_cases hl : (p :: ps).length ≤ (c :: tl).length
      · rw [if_pos hl] at hpos
        have h2 : (p :: ps).isPrefixOf (c :: tl) = false := by
          cases hx : (p :: ps).isPrefixOf (c :: tl)
          · rfl
          · rw [hx] at hpos
            exact absurd hpos (by decide)
        have h3 := ipo_append_left (p :: ps) (c :: tl) ys hl
        rw [show (c :: tl) ++ ys = c :: (tl ++ ys) from rfl] at h3
        rw [h3, h2]
      · rw [if_neg hl] at hpos
        cases hx : (p :: ps).isPrefixOf (c :: (tl ++ ys))
        · rfl
        · exfalso
          have hx2 : (p :: ps).isPrefixOf ((c :: tl) ++ ys) = true := by
            rw [show (c :: tl) ++ ys = c :: (tl ++ ys) from rfl]
            exact hx
          have heq := take_eq_of_ipo_append (p :: ps) (c :: tl) ys hx2
            (by omega)
          have hbeq : ((c :: tl) == (p :: ps).take (c :: tl).length) = true :=
            beq_iff_eq.mpr heq
          rw [hbeq] at hpos
          exact absurd hpos (by decide)
    have step : searchWith (p :: ps) m (c :: (tl ++ ys)) =
        searchWith (p :: ps) m (tl ++ ys) := by
      conv_lhs => unfold searchWith
      rw [if_neg (by simp [hfalse])]
    rw [show (c :: tl) ++ ys = c :: (tl ++ ys) from rfl, step]
    exact ih hrest

/-- A block whose characters all differ from the pattern head is dead. -/
lemma deadAll_of_head_ne (p : Char) (ps xs : List Char)
    (h : ∀ c ∈ xs, (p == c) = false) : deadAll (p :: ps) xs = true := by
  induction xs with
  | nil => rfl
  | cons c tl ih =>
    simp only [deadAll, List.tails_cons, List.all_cons, Bool.and_eq_true]
    have hc : (p == c) = false := h c (by simp)
    refine ⟨?_, ?_⟩
    · have hdead : deadPos (p :: ps) (c :: tl) = true := by
        unfold deadPos
        by_cases hl : (p :: ps).length ≤ (c :: tl).length
        · rw [if_pos hl]
          have hip : (p :: ps).isPrefixOf (c :: tl) = false := by
            simp [List.isPrefixOf, hc]
          simp [hip]
        · rw [if_neg hl]
          have hcp : (c == p) = false := by
            cases hx : c == p
            · rfl
            · exfalso
              have : c = p := beq_iff_eq.mp hx
              rw [this] at hc
              simp at hc
          cases hx : (c :: tl) == (p :: ps).take (c :: tl).length
          · simp [hx]
          · exfalso
            have heq : (c :: tl) = (p :: ps).take (c :: tl).length :=
              beq_iff_eq.mp hx
            rw [show (c :: tl).length = tl.length + 1 from rfl,
              List.take_succ_cons] at heq
            have hcpeq : c = p := by
              injection heq
            rw [hcpeq] at hcp
            simp at hcp
      simp [hdead]
    · have := ih (fun a ha => h a (by simp [ha]))
      simpa [deadAll] using this

/-- Scanning finds the pattern at its position when the sub-matcher
succeeds. -/
lemma searchWith_hit (p : Char) (ps : List Char)
    (m : List Char → Option (List Char)) (rest tok : List Char)
    (h : m rest = some tok) :
    searchWith (p :: ps) m ((p :: ps) ++ rest) = some tok := by
  show searchWith (p :: ps) m (p :: (ps ++ rest)) = some tok
  unfold searchWith
  have hip : (p :: ps).isPrefixOf (p :: (ps ++ rest)) = true :=
    ipo_refl_append (p :: ps) rest
  rw [if_pos hip]
  have hd : (p :: (ps ++ rest)).drop (p :: ps).length = rest :=
    List.drop_left (p :: ps) rest
  rw [hd, h]

/-- The number matcher on a wrapped token followed by the closing paren. -/
lemma matchNumAfter_wrapped (tok rest : List Char) (h1 : tok ≠ [])
    (h2 : ∀ c ∈ tok, numTokChar c = true) :
    matchNumAfter w64 (w64 ++ (tok ++ (')' :: rest))) = some tok := by
  unfold matchNumAfter
  have hip : w64.isPrefixOf (w64 ++ (tok ++ (')' :: rest))) = true :=
    ipo_refl_append w64 _
  rw [if_pos hip]
  have hd : (w64 ++ (tok ++ (')' :: rest))).drop w64.length =
      tok ++ (')' :: rest) := List.drop_left w64 _
  rw [hd]
  rw [takeWhile_append_all numTokChar tok h2 ')' (by decide) rest]
  have hne : tok.isEmpty = false := by
    cases tok with
    | nil => exact absurd rfl h1
    | cons c tl => rfl
  simp [hne]

/-- The number matcher on an unwrapped token followed by a character outside
the class. -/
lemma matchNumAfter_unwrapped (tok : List Char) (h1 : tok ≠ [])
    (h2 : ∀ c ∈ tok, numTokChar c = true) (y : Char)
    (hy : numTokChar y = false) (rest : List Char) :
    matchNumAfter w64 (tok ++ y :: rest) = some tok := by
  unfold matchNumAfter
  have hw : w64.isPrefixOf (tok ++ y :: rest) = false := by
    cases tok with
    | nil => exact absurd rfl h1
    | cons c tl =>
      show List.isPrefixOf ('n' :: _) (c :: (tl ++ y :: rest)) = false
      simp only [List.isPrefixOf]
      rw [ne_of_numTok 'n' c (by decide) (h2 c (by simp))]
      rfl
  rw [if_neg (by simp [hw])]
  rw [takeWhile_append_all numTokChar tok h2 y hy rest]
  have hne : tok.isEmpty = false := by
    cases tok with
    | nil => exact absurd rfl h1
    | cons c tl => rfl
  simp [hne]

/-- Scanning passes a wrapped-or-bare token whose characters all differ from
the pattern head (with dead wrapper and closing paren). -/
lemma skip_wrapTok (p : Char) (ps : List Char)
    (m : List Char → Option (List Char)) (w : Bool) (tok ys : List Char)
    (htok : ∀ c ∈ tok, (p == c) = false)
    (hw : deadAll (p :: ps) w64 = true)
    (hpar : deadAll (p :: ps) [')'] = true) :
    searchWith (p :: ps) m (wrapTok w tok ++ ys) =
      searchWith (p :: ps) m ys := by
  cases w
  · show searchWith (p :: ps) m (tok ++ ys) = _
    exact searchWith_skip p ps m tok ys (deadAll_of_head_ne p ps tok htok)
  · show searchWith (p :: ps) m ((w64 ++ (tok ++ [')'])) ++ ys) = _
    rw [List.append_assoc, List.append_assoc]
    rw [searchWith_skip p ps m w64 _ hw]
    rw [searchWith_skip p ps m tok _ (deadAll_of_head_ne p ps tok htok)]
    exact searchWith_skip p ps m [')'] ys hpar

/-- The `mean=` extraction on a rendered summary recovers the mean token. -/
lemma searchTok_render_mean (wm ws : Bool) (mT sT nT : List Char)
    (hm1 : mT ≠ []) (hm2 : ∀ c ∈ mT, numTokChar c = true) :
    searchTok meanKey (renderSummary wm ws mT sT nT) = some mT := by
  unfold searchTok renderSummary
  rw [show lit1 = pre1 ++ meanKey from by decide, List.append_assoc]
  rw [show meanKey = 'm' :: ['e', 'a', 'n', '='] from rfl]
  rw [searchWith_skip 'm' ['e', 'a', 'n', '='] _ pre1 _ (by decide)]
  apply searchWith_hit
  cases wm
  · exact matchNumAfter_unwrapped mT hm1 hm2 ',' (by decide) _
  · show matchNumAfter w64 ((w64 ++ (mT ++ [')'])) ++ _) = some mT
    rw [List.append_assoc, List.append_assoc]
    exact matchNumAfter_wrapped mT _ hm1 hm2

/-- The `std_dev=` extraction on a rendered summary recovers the std_dev
token. -/
lemma searchTok_render_std (wm ws : Bool) (mT sT nT : List Char)
    (hm2 : ∀ c ∈ mT, numTokChar c = true)
    (hs1 : sT ≠ []) (hs2 : ∀ c ∈ sT, numTokChar c = true) :
    searchTok stdKey (renderSummary wm ws mT sT nT) = some sT := by
  unfold searchTok renderSummary
  rw [show stdKey = 's' :: ['t', 'd', '_', 'd', 'e', 'v', '='] from rfl]
  rw [searchWith_skip 's' _ _ lit1 _ (by decide)]
  rw [skip_wrapTok 's' _ _ wm mT _
    (fun c hc => ne_of_numTok 's' c (by decide) (hm2 c hc))
    (by decide) (by decide)]
  rw [show lit2 = pre2 ++ ('s' :: ['t', 'd', '_', 'd', 'e', 'v', '=']) from by decide,
    List.append_assoc]
  rw [searchWith_skip 's' _ _ pre2 _ (by decide)]
  apply searchWith_hit
  cases ws
  · exact matchNumAfter_unwrapped sT hs1 hs2 ',' (by decide) _
  · show matchNumAfter w64 ((w64 ++ (sT ++ [')'])) ++ _) = some sT
    rw [List.append_assoc, List.append_assoc]
    exact matchNumAfter_wrapped sT _ hs1 hs2

/-- The `sample_size=` extraction on a rendered summary recovers the digit
token. -/
lemma searchDigits_render_size (wm ws : Bool) (mT sT nT : List Char)
    (hm2 : ∀ c ∈ mT, numTokChar c = true)
    (hs2 : ∀ c ∈ sT, numTokChar c = true)
    (hn1 : nT ≠ []) (hn2 : ∀ c ∈ nT, c.isDigit = true) :
    searchDigits sizeKey (renderSummary wm ws mT sT nT) = some nT := by
  unfold searchDigits renderSummary
  rw [show sizeKey =
    's' :: ['a', 'm', 'p', 'l', 'e', '_', 's', 'i', 'z', 'e', '='] from rfl]
  rw [searchWith_skip 's' _ _ lit1 _ (by decide)]
  rw [skip_wrapTok 's' _ _ wm mT _
    (fun c hc => ne_of_numTok 's' c (by decide) (hm2 c hc))
    (by decide) (by decide)]
  rw [searchWith_skip 's' _ _ lit2 _ (by decide)]
  rw [skip_wrapTok 's' _ _ ws sT _
    (fun c hc => ne_of_numTok 's' c (by decide) (hs2 c hc))
    (by decide) (by decide)]
  rw [show lit3 = pre2 ++
    ('s' :: ['a', 'm', 'p', 'l', 'e', '_', 's', 'i', 'z', 'e', '=']) from by decide,
    List.append_assoc]
  rw [searchWith_skip 's' _ _ pre2 _ (by decide)]
  apply searchWith_hit
  unfold digitsMatcher
  rw [show nT ++ [')'] = nT ++ ')' :: [] from rfl]
  rw [takeWhile_append_all Char.isDigit nT hn2 ')' (by decide) []]
  have hne : nT.isEmpty = false := by
    cases nT with
    | nil => exact absurd rfl hn1
    | cons c tl => rfl
  simp [hne]

/-- The `median=` pattern matches nowhere in a rendered summary. -/
lemma searchTok_render_median (wm ws : Bool) (mT sT nT : List Char)
    (hm2 : ∀ c ∈ mT, numTokChar c = true)
    (hs2 : ∀ c ∈ sT, numTokChar c = true)
    (hn2 : ∀ c ∈ nT, c.isDigit = true) :
    searchTok medianKey (renderSummary wm ws mT sT nT) = none := by
  unfold searchTok renderSummary
  rw [show medianKey = 'm' :: ['e', 'd', 'i', 'a', 'n', '='] from rfl]
  rw [searchWith_skip 'm' _ _ lit1 _ (by decide)]
  rw [skip_wrapTok 'm' _ _ wm mT _
    (fun c hc => ne_of_numTok 'm' c (by decide) (hm2 c hc))
    (by decide) (by decide)]
  rw [searchWith_skip 'm' _ _ lit2 _ (by decide)]
  rw [skip_wrapTok 'm' _ _ ws sT _
    (fun c hc => ne_of_numTok 'm' c (by decide) (hs2 c hc))
    (by decide) (by decide)]
  rw [searchWith_skip 'm' _ _ lit3 _ (by decide)]
  rw [searchWith_skip 'm' _ _ nT _ (deadAll_of_head_ne 'm' _ nT
    (fun c hc => ne_of_numTok 'm' c (by decide) (digit_numTok c (hn2 c hc))))]
  decide

/-- The `min_val=` pattern matches nowhere in a rendered summary. -/
lemma searchTok_render_min (wm ws : Bool) (mT sT nT : List Char)
    (hm2 : ∀ c ∈ mT, numTokChar c = true)
    (hs2 : ∀ c ∈ sT, numTokChar c = true)
    (hn2 : ∀ c ∈ nT, c.isDigit = true) :
    searchTok minKey (renderSummary wm ws mT sT nT) = none := by
  unfold searchTok renderSummary
  rw [show minKey = 'm' :: ['i', 'n', '_', 'v', 'a', 'l', '='] from rfl]
  rw [searchWith_skip 'm' _ _ lit1 _ (by decide)]
  rw [skip_wrapTok 'm' _ _ wm mT _
    (fun c hc => ne_of_numTok 'm' c (by decide) (hm2 c hc))
    (by decide) (by decide)]
  rw [searchWith_skip 'm' _ _ lit2 _ (by decide)]
  rw [skip_wrapTok 'm' _ _ ws sT _
    (fun c hc => ne_of_numTok 'm' c (by decide) (hs2 c hc))
    (by decide) (by decide)]
  rw [searchWith_skip 'm' _ _ lit3 _ (by decide)]
  rw [searchWith_skip 'm' _ _ nT _ (deadAll_of_head_ne 'm' _ nT
    (fun c hc => ne_of_numTok 'm' c (by decide) (digit_numTok c (hn2 c hc))))]
  decide

/-- The `max_val=` pattern matches nowhere in a rendered summary. -/
lemma searchTok_render_max (wm ws : Bool) (mT sT nT : List Char)
    (hm2 : ∀ c ∈ mT, numTokChar c = true)
    (hs2 : ∀ c ∈ sT, numTokChar c = true)
    (hn2 : ∀ c ∈ nT, c.isDigit = true) :
    searchTok maxKey (renderSummary wm ws mT sT nT) = none := by
  unfold searchTok renderSummary
  rw [show maxKey = 'm' :: ['a', 'x', '_', 'v', 'a', 'l', '='] from rfl]
  rw [searchWith_skip 'm' _ _ lit1 _ (by decide)]
  rw [skip_wrapTok 'm' _ _ wm mT _
    (fun c hc => ne_of_numTok 'm' c (by decide) (hm2 c hc))
    (by decide) (by decide)]
  rw [searchWith_skip 'm' _ _ lit2 _ (by decide)]
  rw [skip_wrapTok 'm' _ _ ws sT _
    (fun c hc => ne_of_numTok 'm' c (by decide) (hs2 c hc))
    (by decide) (by decide)]
  rw [searchWith_skip 'm' _ _ lit3 _ (by decide)]
  rw [searchWith_skip 'm' _ _ nT _ (deadAll_of_head_ne 'm' _ nT
    (fun c hc => ne_of_numTok 'm' c (by decide) (digit_numTok c (hn2 c hc))))]
  decide

/-- C10: For every valid string-encoded summary containing mean=, std_dev=
and sample_size= tokens (each numeric token with or without the
np.float64(...) wrapper), parsing the string yields numerically identical
mean, std_dev and sample_size values to those of the structured-object form
of the same data: the fix_report_generator parser recovers exactly the
rendered tokens, and compare_performance's _extract_mean returns the same
mean from the string shape as from the structured-dict shape. -/
theorem c10_string_roundtrip (wm ws : Bool) (mT sT nT : List Char)
    (hm1 : mT ≠ []) (hm2 : ∀ c ∈ mT, numTokChar c = true)
    (hs1 : sT ≠ []) (hs2 : ∀ c ∈ sT, numTokChar c = true)
    (hn1 : nT ≠ []) (hn2 : ∀ c ∈ nT, c.isDigit = true)
    (vm vs : ℚ) (hvm : parseFloat mT = some vm)
    (hvs : parseFloat sT = some vs) :
    parseSummaryStr (renderSummary wm ws mT sT nT) =
      { mean := some vm, std_dev := some vs, median := none,
        sample_size := some (digitsToNat nT), minv := none, maxv := none } ∧
    extractMean
      { metadata := [],
        summary := some (SummaryVal.str (renderSummary wm ws mT sT nT)),
        average_time := none, times := none } = some vm ∧
    extractMean
      { metadata := [],
        summary := some (SummaryVal.dict
          [("mean", vm), ("std_dev", vs),
           ("sample_size", (digitsToNat nT : ℚ))]),
        average_time := none, times := none } = some vm := by
  have hmean := searchTok_render_mean wm ws mT sT nT hm1 hm2
  have hstd := searchTok_render_std wm ws mT sT nT hm2 hs1 hs2
  have hsize := searchDigits_render_size wm ws mT sT nT hm2 hs2 hn1 hn2
  have hmed := searchTok_render_median wm ws mT sT nT hm2 hs2 hn2
  have hmin := searchTok_render_min wm ws mT sT nT hm2 hs2 hn2
  have hmax := searchTok_render_max wm ws mT sT nT hm2 hs2 hn2
  refine ⟨?_, ?_, ?_⟩
  · unfold parseSummaryStr
    rw [hmean, hstd, hsize, hmed, hmin, hmax]
    simp [hvm, hvs]
  · unfold extractMean
    dsimp only
    rw [hmean]
    simp [hvm]
  · rfl

/-- Witness for C10 at a concrete input: the summary string
"BenchmarkSummary(mean=np.float64(1.5), std_dev=2, sample_size=10)". -/
theorem c10_string_roundtrip_witness :
    parseFloat ['1', '.', '5'] = some (3 / 2) ∧
      parseSummaryStr
          (renderSummary true false ['1', '.', '5'] ['2'] ['1', '0']) =
        { mean := some (3 / 2), std_dev := some 2, median := none,
          sample_size := some (digitsToNat ['1', '0']), minv := none,
          maxv := none } := by
  have e1 : splitFirst 'e' ['1', '.', '5'] = (['1', '.', '5'], none) := by decide
  have e2 : splitFirst '.' ['1', '.', '5'] = (['1'], some ['5']) := by decide
  have e3 : parseSign ['1', '.', '5'] = (1, ['1', '.', '5']) := by decide
  have hM : parseMantissa ['1', '.', '5'] = some (3 / 2) := by
    unfold parseMantissa
    rw [e3]
    dsimp only
    rw [e2]
    dsimp only
    rw [if_pos (by decide)]
    norm_num [show digitsToNat ['1'] = 1 from by decide,
      show digitsToNat ['5'] = 5 from by decide]
  have hp : parseFloat ['1', '.', '5'] = some (3 / 2) := by
    unfold parseFloat
    rw [e1]
    dsimp only
    rw [hM]
  have e4 : splitFirst 'e' ['2'] = (['2'], none) := by decide
  have e5 : splitFirst '.' ['2'] = (['2'], none) := by decide
  have e6 : parseSign ['2'] = (1, ['2']) := by decide
  have hM2 : parseMantissa ['2'] = some 2 := by
    unfold parseMantissa
    rw [e6]
    dsimp only
    rw [e5]
    dsimp only
    rw [if_pos (by decide)]
    norm_num [show digitsToNat ['2'] = 2 from by decide,
      show digitsToNat [] = 0 from by decide]
  have hp2 : parseFloat ['2'] = some 2 := by
    unfold parseFloat
    rw [e4]
    dsimp only
    rw [hM2]
  exact ⟨hp,
    (c10_string_roundtrip true false ['1', '.', '5'] ['2'] ['1', '0']
      (by decide) (by decide) (by decide) (by decide) (by decide) (by decide)
      (3 / 2) 2 hp hp2).1⟩
